import Mathlib

/-!
Verification of the Automation Command Execution & Resilience Layer of the
mcp-apple-notes server: a shallow embedding of `src/utils/applescript.ts`
(shell escaping, error classification, timeout handling, retry loop) and of
`src/utils/syncDetection.ts` (TTL-cached sync-status probe and the
sync-awareness bracketing helpers), together with proofs about the embedded
definitions.

Strings are modelled by Lean `String` (a list of characters); the JavaScript
regular expressions used by the source are compiled, pattern by pattern, into
executable character-list scanners with the same matching semantics on the
inputs the source can receive.
-/

/-- The single-quote character as a one-character string (written via an
escape so that the file contains no bare apostrophe). -/
def sglq : String := "\x27"

/-- Boolean prefix test on character lists (case sensitive). -/
def isPrefixOfL : List Char → List Char → Bool
  | [], _ => true
  | _ :: _, [] => false
  | p :: ps, c :: cs => p == c && isPrefixOfL ps cs

/-- Boolean substring test on character lists (case sensitive). -/
def containsSub (pat : List Char) : List Char → Bool
  | [] => isPrefixOfL pat []
  | c :: rest => isPrefixOfL pat (c :: rest) || containsSub pat rest

/-- Case-insensitive prefix test: `pat` is given already lower-cased and is
compared against the lower-casing of the scanned text. -/
def isPrefixCI : List Char → List Char → Bool
  | [], _ => true
  | _ :: _, [] => false
  | p :: ps, c :: cs => p == c.toLower && isPrefixCI ps cs

/-- Lower-case every character of a list. -/
def lowerL (l : List Char) : List Char := l.map Char.toLower

/-- Whitespace as the JavaScript `trim()` removes it (the characters that
occur in practice). -/
def isJsWS (c : Char) : Bool := c == ' ' || c == '\t' || c == '\n' || c == '\r'

/-- JavaScript `String.prototype.trim`: drop leading and trailing
whitespace. -/
def trimL (l : List Char) : List Char :=
  ((l.dropWhile isJsWS).reverse.dropWhile isJsWS).reverse

/-- String-level wrapper of `trimL`. -/
def jsTrim (s : String) : String := String.mk (trimL s.data)

/-- Case-insensitive substring test for a JavaScript `/literal/i` regex:
`pat` must be lower-case. -/
def containsCI (pat : String) (s : String) : Bool :=
  containsSub (lowerL pat.data) (lowerL s.data)

/-- Case-sensitive substring test on strings (used only in theorem
statements). -/
def strContains (s pat : String) : Bool := containsSub pat.data s.data

/-- Split a character list into its lines (the separators dropped), mirroring
the fact that `.` in a JavaScript regex never matches a newline. -/
def splitLines : List Char → List (List Char)
  | [] => [[]]
  | c :: rest =>
    if c = '\n' then [] :: splitLines rest
    else
      match splitLines rest with
      | [] => [[c]]
      | l :: ls => (c :: l) :: ls

/-- Drop everything up to and including the first occurrence of `pat`
(`pat` lower-cased, text compared case-insensitively); `none` when `pat`
does not occur. -/
def afterFirstCI (pat : List Char) : List Char → Option (List Char)
  | [] => if isPrefixCI pat [] then some [] else none
  | c :: rest =>
    if isPrefixCI pat (c :: rest) then some ((c :: rest).drop pat.length)
    else afterFirstCI pat rest

/-- Matcher for a JavaScript regex of the shape `/p.*q/i`: some line of the
text contains an occurrence of `p` followed, later on the same line, by an
occurrence of `q` (the `.` of the regex does not match a newline). Both
`p` and `q` must be lower-case literals. -/
def seqSameLineCI (p q : String) (s : String) : Bool :=
  (splitLines s.data).any fun line =>
    match afterFirstCI (lowerL p.data) (lowerL line) with
    | some tail => containsSub (lowerL q.data) tail
    | none => false

/-- Matcher for a JavaScript regex of the shape `/lit "([^"]+)"/i`: scan for
the first occurrence (case-insensitive) of the lower-cased literal `pat`
that is followed by at least one non-quote character and a closing double
quote, and return the captured characters (in their original case). A
position where the literal matches but no capture can be completed is
skipped, as regex backtracking does. -/
def scanCapture (pat : List Char) : List Char → Option (List Char)
  | [] => none
  | c :: rest =>
    if isPrefixCI pat (c :: rest) then
      let tail := (c :: rest).drop pat.length
      let cap := tail.takeWhile (fun x => x ≠ '"')
      if cap ≠ [] ∧ tail.drop cap.length ≠ [] then some cap
      else scanCapture pat rest
    else scanCapture pat rest

/-- Embedding of `escapeForShell` (applescript.ts): every single quote is
replaced by the four-character sequence quote, backslash, quote, quote
(the standard shell escaping pattern); all other characters are kept. -/
def escList : List Char → List Char
  | [] => []
  | c :: cs =>
    if c = '\'' then '\'' :: '\\' :: '\'' :: '\'' :: escList cs
    else c :: escList cs

/-- String-level wrapper of `escList`, keeping the source's name. -/
def escapeForShell (s : String) : String := String.mk (escList s.data)

/-- Behaviour of `escapeForShell` at the JavaScript runtime level for a
possibly-undefined argument: the body `script.replace(...)` dereferences the
argument, so an undefined/null (falsy) input raises a TypeError instead of
being converted to a string; a string argument is escaped as usual. -/
def escapeForShellJS : Option String → Except String String
  | none => Except.error "TypeError"
  | some s => Except.ok (escapeForShell s)

/-- POSIX-shell word interpreter used to state the escaping guarantee: parse
a character stream given the current quoting state (`true` = inside a
single-quoted region); a backslash outside quotes escapes the next
character. Returns the literal argument text, or `none` for an unterminated
quote. -/
def shellParse : List Char → Bool → Option (List Char)
  | [], inQ => if inQ then none else some []
  | c :: rest, true =>
    if c = '\'' then shellParse rest false
    else (shellParse rest true).map (c :: ·)
  | c :: rest, false =>
    if c = '\'' then shellParse rest true
    else if c = '\\' then
      match rest with
      | [] => none
      | d :: rest2 => (shellParse rest2 false).map (d :: ·)
    else (shellParse rest false).map (c :: ·)

/-- Literal part of the regex `/execution error: (.+?)(?:\s*\(-?\d+\))?$/m`
of `parseErrorMessage`. -/
def patExecErr : List Char := "execution error: ".data

/-- Whitespace characters `\s` can consume inside one line. -/
def isLineWS (c : Char) : Bool := c == ' ' || c == '\t' || c == '\r'

/-- Strip from the end of a line the largest suffix matching the optional
group `(?:\s*\(-?\d+\))?` of the execution-error regex, keeping the (lazy,
nonempty) captured prefix; when stripping would leave an empty capture the
group is left unmatched, exactly as the backtracking regex engine does. -/
def stripParenNum (l : List Char) : List Char :=
  match l.reverse with
  | ')' :: rev1 =>
    let digits := rev1.takeWhile Char.isDigit
    if digits = [] then l
    else
      let rev2 := rev1.drop digits.length
      let rev3 := match rev2 with
        | '-' :: r => r
        | r => r
      match rev3 with
      | '(' :: rev4 =>
        let ws := rev4.takeWhile isLineWS
        let keep := (rev4.drop ws.length).reverse
        if keep = [] then l else keep
      | _ => l
  | _ => l

/-- Scanner for `/execution error: (.+?)(?:\s*\(-?\d+\))?$/m`: find the
leftmost occurrence of the literal followed by at least one character
before the end of its line, and return the lazily captured text (the rest
of the line, with one trailing parenthesised number and the whitespace
before it removed). -/
def execErrScan : List Char → Option (List Char)
  | [] => none
  | c :: rest =>
    if isPrefixOfL patExecErr (c :: rest) then
      let lineRest := ((c :: rest).drop patExecErr.length).takeWhile (fun x => x != '\n')
      if lineRest = [] then execErrScan rest
      else some (stripParenNum lineRest)
    else execErrScan rest

/-- Literal part of the fallback regex (case sensitive): the source text
spells it Can-apostrophe-t followed by a space-separated get. -/
def patCanTGet : List Char := ("Can" ++ sglq ++ "t get ").data

/-- Lazy capture for the tail `(.+?)\.` of the fallback regex: at least one
non-newline character, then the shortest continuation up to a dot on the
same line. -/
def capLazyDot : List Char → Option (List Char)
  | [] => none
  | d :: rest =>
    if d = '\n' then none
    else
      let more := rest.takeWhile (fun x => x != '.' && x != '\n')
      if (rest.drop more.length).head? = some '.' then some (d :: more)
      else none

/-- Scanner for the whole fallback regex: leftmost occurrence of the
literal at which the lazy capture can be completed. -/
def notFoundScan : List Char → Option (List Char)
  | [] => none
  | c :: rest =>
    if isPrefixOfL patCanTGet (c :: rest) then
      match capLazyDot ((c :: rest).drop patCanTGet.length) with
      | some cap => some cap
      | none => notFoundScan rest
    else notFoundScan rest

/-- Message of the permission entry of `ERROR_MAPPINGS`. -/
def msgPermission : String :=
  "Permission denied. Grant automation access in System Preferences > Privacy & Security > Automation."

/-- Message of the application-not-running entry of `ERROR_MAPPINGS`. -/
def msgNotRunning : String := "Notes.app is not responding. Try opening Notes.app manually."

/-- Message of the connection-error entry of `ERROR_MAPPINGS`. -/
def msgConnLost : String := "Lost connection to Notes.app. The app may have crashed or been restarted."

/-- Message template of the note-not-found entry of `ERROR_MAPPINGS`. -/
def noteTemplate : String := "Note \"$1\" not found. Verify the title is exact (case-sensitive)."

/-- Message of the note-not-found-by-id entry of `ERROR_MAPPINGS`. -/
def msgNoteId : String := "Note not found. The note may have been deleted or the ID is invalid."

/-- Message template of the folder-not-found entry of `ERROR_MAPPINGS`. -/
def folderTemplate : String := "Folder \"$1\" not found. Use list-folders to see available folders."

/-- Message template of the account-not-found entry of `ERROR_MAPPINGS`. -/
def accountTemplate : String := "Account \"$1\" not found. Use list-accounts to see available accounts."

/-- Message of the folder-already-exists entry of `ERROR_MAPPINGS`. -/
def msgAlreadyExists : String := "A folder with that name already exists."

/-- Message of the cannot-delete entry of `ERROR_MAPPINGS`. -/
def msgCannotDelete : String := "Cannot delete. The item may be locked or in use."

/-- Message of the password-protected entry of `ERROR_MAPPINGS`. -/
def msgLocked : String := "Note is password-protected. Unlock it in Notes.app first."

/-- Message of the last (script error) entry of `ERROR_MAPPINGS`. -/
def msgInternal : String := "Internal error. Please report this issue."

/-- JavaScript `String.replace` with a plain (nonempty) string pattern:
replace the first occurrence of `pat`, if any. -/
def replaceFirstL (pat rep : List Char) : List Char → List Char
  | [] => []
  | c :: rest =>
    if isPrefixOfL pat (c :: rest) then rep ++ (c :: rest).drop pat.length
    else c :: replaceFirstL pat rep rest

/-- Instantiate an `ERROR_MAPPINGS` message template: the capture-group loop
of `parseErrorMessage` replaces the first occurrence of the placeholder
with the captured text. -/
def applyTemplate (tmpl cap : String) : String :=
  String.mk (replaceFirstL ("$1".data) cap.data tmpl.data)

/-- First-match-wins walk over the ordered `ERROR_MAPPINGS` table: each
entry of the source table appears here in the source order, its regex
compiled to the corresponding scanner, and the matched entry's message
(with the placeholder substituted) is returned. -/
def errorMappingsMatch (core : String) : Option String :=
  if containsCI "not authorized" core || containsCI "not permitted" core
      || seqSameLineCI "access" "denied" core then some msgPermission
  else if containsCI ("application isn" ++ sglq ++ "t running") core
      || containsCI "not running" core then some msgNotRunning
  else if containsCI "connection is invalid" core || containsCI "lost connection" core then
    some msgConnLost
  else match scanCapture (lowerL ("can" ++ sglq ++ "t get note \"").data) core.data with
  | some cap => some (applyTemplate noteTemplate (String.mk cap))
  | none =>
  if containsCI ("can" ++ sglq ++ "t get note id") core then some msgNoteId
  else match scanCapture (lowerL ("can" ++ sglq ++ "t get folder \"").data) core.data with
  | some cap => some (applyTemplate folderTemplate (String.mk cap))
  | none =>
  match scanCapture (lowerL ("can" ++ sglq ++ "t get account \"").data) core.data with
  | some cap => some (applyTemplate accountTemplate (String.mk cap))
  | none =>
  if seqSameLineCI "folder" "already exists" core then some msgAlreadyExists
  else if containsCI ("can" ++ sglq ++ "t delete") core || containsCI "cannot delete" core then
    some msgCannotDelete
  else if containsCI "password protected" core || containsCI "locked note" core then some msgLocked
  else if containsCI "syntax error" core || containsCI "expected" core then some msgInternal
  else none

/-- The `coreError` computed at the top of `parseErrorMessage`: the trimmed
capture of an execution-error line when one is present, or the raw error
output. -/
def coreErrorOf (errorOutput : String) : String :=
  match execErrScan errorOutput.data with
  | some cap => jsTrim (String.mk cap)
  | none => errorOutput

/-- Embedding of `parseErrorMessage` (applescript.ts): extract the core text
of an execution-error line if present, try the ordered `ERROR_MAPPINGS`
table, fall back to the not-found capture, and finally return the trimmed
core text or the unknown-error message. -/
def parseErrorMessage (errorOutput : String) : String :=
  match errorMappingsMatch (coreErrorOf errorOutput) with
  | some m => m
  | none =>
    match notFoundScan (coreErrorOf errorOutput).data with
    | some cap => "Not found: " ++ String.mk cap
    | none =>
      if jsTrim (coreErrorOf errorOutput) = "" then "Unknown AppleScript error"
      else jsTrim (coreErrorOf errorOutput)

/-- Embedding of `isRetryableError` and its `RETRYABLE_ERROR_PATTERNS`
table, each regex compiled to the matching scanner (the first pattern, with
an optional letter, matches exactly the two literals tested here). -/
def isRetryableError (errorMessage : String) : Bool :=
  containsCI "timed out" errorMessage || containsCI "time out" errorMessage
    || containsCI "not responding" errorMessage
    || seqSameLineCI "connection" "invalid" errorMessage
    || containsCI "lost connection" errorMessage
    || containsCI "busy" errorMessage

/-- A value caught by the catch block of `executeAppleScript`: an `Error`
object (with the `killed` and `signal` fields `execSync` sets), a thrown
string, or any other thrown value. -/
inductive CaughtError where
  | errObj (killed : Bool) (signal : Option String) (message : String)
  | str (s : String)
  | other
deriving DecidableEq

/-- Outcome of one `execSync` invocation: captured stdout, or a thrown
value. -/
inductive ExecOutcome where
  | ok (stdout : String)
  | threw (e : CaughtError)
deriving DecidableEq

/-- Embedding of `isTimeoutError`: an `Error` whose `killed` flag is set or
whose `signal` is SIGTERM. -/
def isTimeoutError : CaughtError → Bool
  | .errObj killed signal _ => killed || signal == some "SIGTERM"
  | _ => false

/-- The dedicated timeout message, with the timeout rendered in seconds via
JavaScript `Math.round(timeoutMs / 1000)` (floor of the quotient plus one
half, computed here on naturals). -/
def timeoutMessage (timeoutMs : Nat) : String :=
  "Operation timed out after " ++ toString ((2 * timeoutMs + 1000) / 2000)
    ++ " seconds. Notes.app may be unresponsive or the operation involves too many notes."

/-- Error message computed by the catch block of `executeAppleScript`: the
timeout case is recognised first, before any classification; then `Error`
messages and thrown strings go through `parseErrorMessage`, and any other
thrown value yields the generic message. -/
def failMessage (timeoutMs : Nat) (e : CaughtError) : String :=
  if isTimeoutError e then timeoutMessage timeoutMs
  else
    match e with
    | .errObj _ _ m => parseErrorMessage m
    | .str s => parseErrorMessage s
    | .other => "AppleScript execution failed with unknown error"

/-- Retry decision of the catch block (`canRetry = isTimeout ||
isRetryableError(errorMessage)`). -/
def canRetry (timeoutMs : Nat) (e : CaughtError) : Bool :=
  isTimeoutError e || isRetryableError (failMessage timeoutMs e)

/-- Structured result of `executeAppleScript` (the `AppleScriptResult`
interface). -/
structure ASResult where
  success : Bool
  output : String
  error : Option String
deriving DecidableEq

/-- Observable trace of one `executeAppleScript` call: the returned value
(`none` models the `null` that the final `lastError!` can produce), the
number of `execSync` invocations performed, and the backoff sleeps (in
milliseconds) in the order they happened. -/
structure ExecTrace where
  result : Option ASResult
  attemptsMade : Nat
  sleeps : List Nat
deriving DecidableEq

/-- Result of a single attempt as `executeAppleScript` converts it: success
returns the trimmed stdout, a caught value becomes a failure carrying
`failMessage`. -/
def attemptResult (timeoutMs : Nat) : ExecOutcome → ASResult
  | .ok out => ⟨true, jsTrim out, none⟩
  | .threw e => ⟨false, "", some (failMessage timeoutMs e)⟩

/-- The retry loop of `executeAppleScript` (a `for` loop from attempt 1 up
to `maxRetries`): `fuel` counts the loop iterations still permitted,
`attempt` is the current attempt number, and `exec` gives the outcome of
each `execSync` invocation by attempt number. On success the trimmed output
is returned at once; on failure the loop retries (after a blocking sleep of
`retryDelayMs * 2 ^ (attempt - 1)` milliseconds) exactly when the failure
is retryable and attempts remain, and otherwise returns the failure. -/
def runAttempts (exec : Nat → ExecOutcome) (timeoutMs retryDelayMs : Nat) (maxRetries : Int) :
    Nat → Nat → Option ASResult → ExecTrace
  | 0, attempt, lastError => ⟨lastError, attempt - 1, []⟩
  | fuel + 1, attempt, _ =>
    match exec attempt with
    | .ok out => ⟨some ⟨true, jsTrim out, none⟩, attempt, []⟩
    | .threw e =>
      let le : ASResult := ⟨false, "", some (failMessage timeoutMs e)⟩
      if canRetry timeoutMs e ∧ (attempt : Int) < maxRetries then
        let t := runAttempts exec timeoutMs retryDelayMs maxRetries fuel (attempt + 1) (some le)
        ⟨t.result, t.attemptsMade, retryDelayMs * 2 ^ (attempt - 1) :: t.sleeps⟩
      else ⟨some le, attempt, []⟩

/-- The emptiness test of `executeAppleScript` on its `script` argument
(`none` models a null/undefined argument; both branches of the source test
are covered since an empty string is falsy). -/
def scriptEmpty : Option String → Bool
  | none => true
  | some s => jsTrim s = ""

/-- Embedding of `executeAppleScript` (applescript.ts, retry version): an
empty or whitespace-only script fails fast with the dedicated error and no
`execSync` call; otherwise the retry loop runs with at most `maxRetries`
iterations (none at all when `maxRetries < 1`, in which case the function
falls through and returns its `lastError` variable, still null). -/
def executeAppleScript (script : Option String) (timeoutMs : Nat) (maxRetries : Int)
    (retryDelayMs : Nat) (exec : Nat → ExecOutcome) : ExecTrace :=
  if scriptEmpty script then ⟨some ⟨false, "", some "Cannot execute empty AppleScript"⟩, 0, []⟩
  else runAttempts exec timeoutMs retryDelayMs maxRetries maxRetries.toNat 1 none

/-- The `SyncStatus` record of syncDetection.ts. `secondsSinceLastChange`
is `none` where the source stores `Infinity` (no modification-time
signal). -/
structure SyncStatus where
  syncDetected : Bool
  pendingUpload : Nat
  secondsSinceLastChange : Option Int
  recentActivity : Bool
  warning : Option String
  error : Option String
deriving DecidableEq

/-- JavaScript `Math.round`: floor of the argument plus one half. -/
def jsRound (q : ℚ) : Int := ⌊q + 1/2⌋

/-- The recent-activity threshold of syncDetection.ts, in seconds. -/
def RECENT_ACTIVITY_THRESHOLD_SECONDS : ℚ := 5

/-- The sync-status cache TTL of syncDetection.ts, in milliseconds. -/
def SYNC_STATUS_CACHE_TTL_MS : Int := 2000

/-- External observations made by one probe of `getSyncStatus`: the current
clock (`Date.now()`, in ms), whether the Notes database file exists,
the WAL file's modification time in ms (`none` when the WAL file does not
exist), and the outcome of the `sqlite3` pending-changes query (the parsed
count, or the message of the exception it raised). -/
structure SyncEnv where
  now : Int
  dbExists : Bool
  wal : Option Int
  query : Except String Nat

/-- Renders `secondsSinceLastChange` the way JavaScript string
interpolation would. -/
def sscShow : Option Int → String
  | none => "Infinity"
  | some r => toString r

/-- The warning message `getSyncStatus` composes when sync is detected,
listing whichever conditions triggered the detection. -/
def mkWarning (pendingUpload : Nat) (recentActivity : Bool) (ssc : Option Int) : String :=
  let reasons :=
    (if 0 < pendingUpload then [toString pendingUpload ++ " item(s) pending upload"] else [])
      ++ (if recentActivity then ["database modified " ++ sscShow ssc ++ "s ago"] else [])
  "iCloud sync in progress: " ++ String.intercalate ", " reasons
    ++ ". Results may be incomplete or change shortly."

/-- One uncached probe of `getSyncStatus` (lines 97 to 154 of
syncDetection.ts): the database-missing early return, the WAL-derived
activity fields (`recentActivity` compares the exact, unrounded seconds
with the threshold, while the stored field is rounded), the pending-upload
query with its catch branch that records the error and leaves
`syncDetected` false, and the composed warning. -/
def freshProbe (env : SyncEnv) : SyncStatus :=
  if env.dbExists = false then
    ⟨false, 0, none, false, none, some "Notes database not found"⟩
  else
    let walFields : Option Int × Bool :=
      match env.wal with
      | none => (none, false)
      | some mtime =>
        let secondsAgo : ℚ := ((env.now - mtime : Int) : ℚ) / 1000
        (some (jsRound secondsAgo), decide (secondsAgo < RECENT_ACTIVITY_THRESHOLD_SECONDS))
    match env.query with
    | Except.error e => ⟨false, 0, walFields.1, walFields.2, none, some e⟩
    | Except.ok n =>
      let det := decide (0 < n) || walFields.2
      ⟨det, n, walFields.1, walFields.2,
        if det then some (mkWarning n walFields.2 walFields.1) else none, none⟩

/-- The module-level cache of syncDetection.ts: the `cachedSyncStatus` and
`cacheTimestamp` variables. -/
structure CacheState where
  cachedSyncStatus : Option SyncStatus
  cacheTimestamp : Int
deriving DecidableEq

/-- The state `clearSyncStatusCache` resets to (also the initial module
state). -/
def clearSyncStatusCache : CacheState := ⟨none, 0⟩

/-- Probe and store the fresh result with the current timestamp in the
cache; the third component records that a probe was issued. -/
def probeAndCache (env : SyncEnv) : SyncStatus × CacheState × Bool :=
  let s := freshProbe env
  (s, ⟨some s, env.now⟩, true)

/-- Embedding of `getSyncStatus`: return the cached entry unmodified when
`useCache` is set, an entry exists and it is younger than the TTL;
otherwise probe and cache (the source writes the cache on every probe
path: forced, expired, query-error and database-missing alike). The third
component of the result tells whether a probe was issued. -/
def getSyncStatus (useCache : Bool) (env : SyncEnv) (st : CacheState) :
    SyncStatus × CacheState × Bool :=
  match st.cachedSyncStatus with
  | some c =>
    if useCache && (env.now - st.cacheTimestamp < SYNC_STATUS_CACHE_TTL_MS) then (c, st, false)
    else probeAndCache env
  | none => probeAndCache env

/-- The `SyncAwareResult` record of syncDetection.ts. -/
structure SyncAwareResult (α : Type) where
  result : α
  syncBefore : SyncStatus
  syncAfter : Option SyncStatus
  syncInterference : Bool
  interferenceWarning : Option String

/-- The interference warning both bracketing helpers compose, including the
pending-count delta. -/
def interferenceMessage (operation : String) (b a : SyncStatus) : String :=
  "iCloud sync activity detected during \"" ++ operation ++ "\". Pending items: "
    ++ toString b.pendingUpload ++ " → " ++ toString a.pendingUpload
    ++ ". Results may have been affected by sync."

/-- Embedding of the asynchronous `withSyncAwareness`: a cache-eligible
status read, the wrapped operation (whose value is `result`; the
verification delay only moves the clock of `envAfter`), an uncached fresh
read, and the interference decision. -/
def withSyncAwareness {α : Type} (operation : String) (envBefore envAfter : SyncEnv)
    (st : CacheState) (result : α) : SyncAwareResult α × CacheState :=
  let b := getSyncStatus true envBefore st
  let a := getSyncStatus false envAfter b.2.1
  let syncBefore := b.1
  let syncAfter := a.1
  let pendingChanged : Bool := syncBefore.pendingUpload != syncAfter.pendingUpload
  let syncInterference : Bool :=
    (syncBefore.syncDetected && pendingChanged)
      || (syncBefore.recentActivity && syncAfter.recentActivity)
  let w := if syncInterference then some (interferenceMessage operation syncBefore syncAfter)
    else none
  (⟨result, syncBefore, some syncAfter, syncInterference, w⟩, a.2.1)

/-- Embedding of the synchronous `withSyncAwarenessSync`; its body is the
same as the asynchronous variant's except that no verification delay
elapses before the after-read. -/
def withSyncAwarenessSync {α : Type} (operation : String) (envBefore envAfter : SyncEnv)
    (st : CacheState) (result : α) : SyncAwareResult α × CacheState :=
  let b := getSyncStatus true envBefore st
  let a := getSyncStatus false envAfter b.2.1
  let syncBefore := b.1
  let syncAfter := a.1
  let pendingChanged : Bool := syncBefore.pendingUpload != syncAfter.pendingUpload
  let syncInterference : Bool :=
    (syncBefore.syncDetected && pendingChanged)
      || (syncBefore.recentActivity && syncAfter.recentActivity)
  let w := if syncInterference then some (interferenceMessage operation syncBefore syncAfter)
    else none
  (⟨result, syncBefore, some syncAfter, syncInterference, w⟩, a.2.1)

-- ===== THEOREMS =====

theorem str_data_append : ∀ (a b : String), (a ++ b).data = a.data ++ b.data
  | ⟨_⟩, ⟨_⟩ => rfl

theorem isPrefixOfL_self_append (p r : List Char) : isPrefixOfL p (p ++ r) = true := by
  induction p with
  | nil => rfl
  | cons a as ih => simp [isPrefixOfL, ih]

theorem containsSub_of_middle (pat x y : List Char) :
    containsSub pat (x ++ (pat ++ y)) = true := by
  induction x with
  | nil =>
    cases h : pat ++ y with
    | nil =>
      have hp : pat = [] := by
        cases pat with
        | nil => rfl
        | cons a as => simp at h
      subst hp; rfl
    | cons c rest =>
      simp only [List.nil_append, h, containsSub]
      rw [← h, isPrefixOfL_self_append]
      rfl
  | cons c cs ih =>
    simp only [containsSub, List.cons_append, List.append_eq] at ih ⊢
    rw [ih, Bool.or_true]

/-- C4: a script that is empty or whitespace-only after trimming (including
a null/undefined script) makes `executeAppleScript` return success = false,
empty output and the dedicated error "Cannot execute empty AppleScript",
with no subprocess invocation and no sleep. -/
theorem executeAppleScript_empty_script (script : Option String) (timeoutMs : Nat)
    (maxRetries : Int) (retryDelayMs : Nat) (exec : Nat → ExecOutcome)
    (h : scriptEmpty script = true) :
    executeAppleScript script timeoutMs maxRetries retryDelayMs exec
      = ⟨some ⟨false, "", some "Cannot execute empty AppleScript"⟩, 0, []⟩ := by
  simp [executeAppleScript, h]

/-- Witness for C4 at a whitespace-only script (the null case evaluates the
same way). -/
theorem executeAppleScript_empty_script_witness :
    (scriptEmpty (some "  ") = true ∧ scriptEmpty none = true)
    ∧ executeAppleScript (some "  ") 30000 3 1000 (fun _ => ExecOutcome.ok "x")
      = ⟨some ⟨false, "", some "Cannot execute empty AppleScript"⟩, 0, []⟩ :=
  ⟨⟨by decide, by decide⟩,
    executeAppleScript_empty_script (some "  ") 30000 3 1000 (fun _ => ExecOutcome.ok "x")
      (by decide)⟩

/-- C10: with a non-empty script but a non-positive `maxRetries`, the loop
body never runs: no `execSync` invocation is performed and the function
returns its null `lastError` instead of a structured result, so the
never-null guarantee needs `maxRetries ≥ 1`. -/
theorem executeAppleScript_nonpositive_retries (script : Option String) (timeoutMs : Nat)
    (maxRetries : Int) (retryDelayMs : Nat) (exec : Nat → ExecOutcome)
    (hs : scriptEmpty script = false) (hm : maxRetries ≤ 0) :
    executeAppleScript script timeoutMs maxRetries retryDelayMs exec = ⟨none, 0, []⟩ := by
  have h0 : maxRetries.toNat = 0 := Int.toNat_of_nonpos hm
  simp [executeAppleScript, hs, h0, runAttempts]

/-- Witness for C10 at `maxRetries = 0`. -/
theorem executeAppleScript_nonpositive_retries_witness :
    (scriptEmpty (some "x") = false ∧ (0 : Int) ≤ 0)
    ∧ executeAppleScript (some "x") 30000 0 1000 (fun _ => ExecOutcome.ok "y")
      = ⟨none, 0, []⟩ :=
  ⟨⟨by decide, by decide⟩,
    executeAppleScript_nonpositive_retries (some "x") 30000 0 1000
      (fun _ => ExecOutcome.ok "y") (by decide) (by decide)⟩

theorem isPrefixOfL_append_mono (p : List Char) :
    ∀ x y : List Char, isPrefixOfL p x = true → isPrefixOfL p (x ++ y) = true := by
  induction p with
  | nil => intro x y _; rfl
  | cons a as ih =>
    intro x y h
    cases x with
    | nil => simp [isPrefixOfL] at h
    | cons c cs =>
      simp only [isPrefixOfL, Bool.and_eq_true] at h ⊢
      exact ⟨h.1, ih cs y h.2⟩

theorem containsSub_append_right (pat : List Char) :
    ∀ x y : List Char, containsSub pat x = true → containsSub pat (x ++ y) = true := by
  intro x
  induction x with
  | nil =>
    intro y h
    have hp : pat = [] := by
      cases pat with
      | nil => rfl
      | cons a as => simp [containsSub, isPrefixOfL] at h
    subst hp
    cases y with
    | nil => rfl
    | cons c cs => simp [containsSub, isPrefixOfL]
  | cons c cs ih =>
    intro y h
    simp only [containsSub, Bool.or_eq_true] at h
    rcases h with h | h
    · have := isPrefixOfL_append_mono pat (c :: cs) y h
      simp only [List.cons_append] at this ⊢
      simp [containsSub, this]
    · have := ih y h
      simp only [containsSub, List.cons_append, List.append_eq] at this ⊢
      rw [this, Bool.or_true]

theorem applyTemplate_ne_empty (tmpl cap : String)
    (h1 : tmpl.data ≠ []) (h2 : isPrefixOfL ("$1".data) tmpl.data = false) :
    applyTemplate tmpl cap ≠ "" := by
  unfold applyTemplate
  intro hcon
  have hd := congrArg String.data hcon
  cases htd : tmpl.data with
  | nil => exact h1 htd
  | cons c l =>
    rw [htd] at hd h2
    simp [replaceFirstL, h2] at hd

theorem errorMappingsMatch_ne_empty (core m : String)
    (h : errorMappingsMatch core = some m) : m ≠ "" := by
  unfold errorMappingsMatch at h
  repeat' split at h
  all_goals first
    | exact Option.noConfusion h
    | (injection h with h; subst h; decide)
    | (injection h with h; subst h; apply applyTemplate_ne_empty <;> decide)

theorem parseErrorMessage_ne_empty (s : String) : parseErrorMessage s ≠ "" := by
  unfold parseErrorMessage
  split
  · next m hm => exact errorMappingsMatch_ne_empty _ m hm
  · next hm =>
    split
    · next cap hn =>
      intro hcon
      have hd := congrArg String.data hcon
      rw [str_data_append] at hd
      simp at hd
    · next hn =>
      split
      · exact (by decide : ("Unknown AppleScript error" : String) ≠ "")
      · next hne => exact hne

theorem timeoutMessage_hint (timeoutMs : Nat) :
    strContains (timeoutMessage timeoutMs) "Notes.app may be unresponsive" = true := by
  unfold strContains timeoutMessage
  rw [str_data_append, str_data_append]
  have hs : (" seconds. Notes.app may be unresponsive or the operation involves too many notes.").data
      = " seconds. ".data
        ++ ("Notes.app may be unresponsive".data
            ++ " or the operation involves too many notes.".data) := by decide
  rw [hs, ← List.append_assoc]
  exact containsSub_of_middle _ _ _

theorem timeoutMessage_retryable (timeoutMs : Nat) :
    isRetryableError (timeoutMessage timeoutMs) = true := by
  have h : containsCI "timed out" (timeoutMessage timeoutMs) = true := by
    unfold containsCI timeoutMessage
    rw [str_data_append, str_data_append]
    simp only [lowerL, List.map_append]
    apply containsSub_append_right
    apply containsSub_append_right
    decide
  simp [isRetryableError, h]

/-- C6: the error classifier is total — it returns a nonempty message for
every input string and never fails — with the empty string mapped to the
unknown-error fallback; classifying the authorization failure yields the
permission message that mentions automation access, and classifying the
note-not-found failure for "Foo" yields the not-found message containing
"Foo" and the case-sensitivity hint. -/
theorem parseErrorMessage_total_spec :
    (∀ s : String, parseErrorMessage s ≠ "")
    ∧ parseErrorMessage "" = "Unknown AppleScript error"
    ∧ parseErrorMessage "not authorized to send events" = msgPermission
    ∧ strContains msgPermission "automation access" = true
    ∧ parseErrorMessage ("Can" ++ sglq ++ "t get note \"Foo\".")
        = "Note \"Foo\" not found. Verify the title is exact (case-sensitive)."
    ∧ strContains "Note \"Foo\" not found. Verify the title is exact (case-sensitive)." "\"Foo\""
        = true
    ∧ strContains "Note \"Foo\" not found. Verify the title is exact (case-sensitive)."
        "case-sensitive" = true :=
  ⟨parseErrorMessage_ne_empty, by decide, by decide, by decide, by decide, by decide, by decide⟩

/-- C2 counterexample: an application-not-running failure, which the claim
counts among the kinds that are never retryable, is retryable in the code.
Its mapped user-facing message, "Notes.app is not responding. Try opening
Notes.app manually.", matches the retryable pattern for not-responding
errors, so the retry decision of the executor treats it as transient. -/
theorem retryability_kind_counterexample :
    parseErrorMessage ("Application isn" ++ sglq ++ "t running") = msgNotRunning
    ∧ isRetryableError msgNotRunning = true
    ∧ canRetry 30000
        (CaughtError.errObj false none ("Application isn" ++ sglq ++ "t running")) = true :=
  ⟨by decide, by decide, by decide⟩

/-- C2 amended: whether a failure is retried is a pure function of the
timeout flag and the final user-facing message, matched against the
retryable patterns — not of a separately classified kind. Timeout and
connection-lost messages are retryable; contrary to the original claim, so
is the application-not-running message; the permission, not-found,
already-exists, cannot-delete, locked and internal-error messages are
not retryable. -/
theorem retryability_by_message :
    isRetryableError msgPermission = false
    ∧ isRetryableError msgNotRunning = true
    ∧ isRetryableError msgConnLost = true
    ∧ isRetryableError (applyTemplate noteTemplate "Foo") = false
    ∧ isRetryableError msgNoteId = false
    ∧ isRetryableError (applyTemplate folderTemplate "Foo") = false
    ∧ isRetryableError (applyTemplate accountTemplate "Foo") = false
    ∧ isRetryableError msgAlreadyExists = false
    ∧ isRetryableError msgCannotDelete = false
    ∧ isRetryableError msgLocked = false
    ∧ isRetryableError msgInternal = false
    ∧ (∀ timeoutMs : Nat, isRetryableError (timeoutMessage timeoutMs) = true)
    ∧ (∀ (timeoutMs : Nat) (e : CaughtError),
        canRetry timeoutMs e = (isTimeoutError e || isRetryableError (failMessage timeoutMs e))) :=
  ⟨by decide, by decide, by decide, by decide, by decide, by decide, by decide, by decide,
    by decide, by decide, by decide, timeoutMessage_retryable, fun _ _ => rfl⟩

/-- C3: an execution attempt whose subprocess was killed by the wall-clock
timeout produces the dedicated timeout failure: the message is the fixed
timeout message carrying the configured timeout in seconds (containing
"30 seconds" when the timeout is 30000 ms) and a hint that Notes.app may be
unresponsive; the timeout test runs before the generic pattern-table
classification (whatever message the caught error object carries, the
dedicated message is used); and a timeout failure counts as retryable. -/
theorem executeAppleScript_timeout_contract (timeoutMs : Nat) (e : CaughtError)
    (h : isTimeoutError e = true) :
    failMessage timeoutMs e = timeoutMessage timeoutMs
    ∧ canRetry timeoutMs e = true
    ∧ strContains (timeoutMessage 30000) "30 seconds" = true
    ∧ strContains (timeoutMessage timeoutMs) "Notes.app may be unresponsive" = true
    ∧ executeAppleScript (some "x") timeoutMs 1 1000 (fun _ => ExecOutcome.threw e)
      = ⟨some ⟨false, "", some (timeoutMessage timeoutMs)⟩, 1, []⟩ := by
  have hfm : failMessage timeoutMs e = timeoutMessage timeoutMs := by simp [failMessage, h]
  have hse : scriptEmpty (some "x") = false := by decide
  refine ⟨hfm, by simp [canRetry, h], by decide, timeoutMessage_hint timeoutMs, ?_⟩
  simp [executeAppleScript, hse, runAttempts, hfm]

/-- Witness for C3 at a SIGTERM-killed attempt and the default 30000 ms
timeout. -/
theorem executeAppleScript_timeout_contract_witness :
    isTimeoutError (CaughtError.errObj true (some "SIGTERM") "whatever execSync reported") = true
    ∧ (failMessage 30000 (CaughtError.errObj true (some "SIGTERM") "whatever execSync reported")
        = timeoutMessage 30000
      ∧ canRetry 30000 (CaughtError.errObj true (some "SIGTERM") "whatever execSync reported")
        = true
      ∧ strContains (timeoutMessage 30000) "30 seconds" = true
      ∧ strContains (timeoutMessage 30000) "Notes.app may be unresponsive" = true
      ∧ executeAppleScript (some "x") 30000 1 1000
          (fun _ => ExecOutcome.threw
            (CaughtError.errObj true (some "SIGTERM") "whatever execSync reported"))
        = ⟨some ⟨false, "", some (timeoutMessage 30000)⟩, 1, []⟩) :=
  ⟨by decide,
    executeAppleScript_timeout_contract 30000
      (CaughtError.errObj true (some "SIGTERM") "whatever execSync reported") (by decide)⟩

theorem escList_id (cs : List Char) (h : ∀ c ∈ cs, c ≠ '\'') : escList cs = cs := by
  induction cs with
  | nil => rfl
  | cons c l ih =>
    have hc : c ≠ '\'' := h c (List.mem_cons_self c l)
    simp [escList, hc, ih fun d hd => h d (List.mem_cons_of_mem c hd)]

theorem escList_quote (cs : List Char) :
    escList ('\'' :: cs) = '\'' :: '\\' :: '\'' :: '\'' :: escList cs := rfl

theorem escList_other (c : Char) (cs : List Char) (h : ¬c = '\'') :
    escList (c :: cs) = c :: escList cs := by
  simp [escList, h]

theorem shellParse_inq_quote (x : List Char) :
    shellParse ('\'' :: x) true = shellParse x false := rfl

theorem shellParse_inq_other (c : Char) (x : List Char) (h : ¬c = '\'') :
    shellParse (c :: x) true = (shellParse x true).map (c :: ·) := by
  cases x <;> simp [shellParse, h]

theorem shellParse_out_quote (x : List Char) :
    shellParse ('\'' :: x) false = shellParse x true := by
  cases x <;> rfl

theorem shellParse_out_bs (d : Char) (x : List Char) :
    shellParse ('\\' :: d :: x) false = (shellParse x false).map (d :: ·) := by
  cases x <;> rfl

theorem shellParse_escList (cs : List Char) :
    shellParse (escList cs ++ ['\'']) true = some cs := by
  induction cs with
  | nil => rfl
  | cons c l ih =>
    by_cases hc : c = '\''
    · subst hc
      rw [escList_quote, List.cons_append, List.cons_append, List.cons_append, List.cons_append,
        shellParse_inq_quote, shellParse_out_bs, shellParse_out_quote, ih]
      rfl
    · rw [escList_other c l hc, List.cons_append, shellParse_inq_other c _ hc, ih]
      rfl

/-- C5 amended: on strings without the shell delimiter, `escapeForShell` is
the identity and hence idempotent; for every string (with or without
delimiters), interpreting the escaped text inside the single-quoted
argument that `executeAppleScript` builds recovers the original script
exactly, so no delimiter of the input ever terminates the argument early;
and the empty string — the only falsy string — maps to the empty string.
Contrary to the original claim, an undefined/null input is not converted
to the empty string: the unguarded `.replace` call raises a TypeError. -/
theorem escapeForShell_contract (s : String) (h : ∀ c ∈ s.data, c ≠ '\'') :
    escapeForShell s = s
    ∧ escapeForShell (escapeForShell s) = escapeForShell s
    ∧ (∀ t : String, shellParse ('\'' :: ((escapeForShell t).data ++ ['\''])) false = some t.data)
    ∧ escapeForShell "" = "" := by
  have hid : escapeForShell s = s := by
    show String.mk (escList s.data) = s
    rw [escList_id s.data h]
  refine ⟨hid, by rw [hid]; exact hid, ?_, rfl⟩
  intro t
  show shellParse ('\'' :: (escList t.data ++ ['\''])) false = some t.data
  rw [shellParse_out_quote, shellParse_escList]

/-- Witness for C5 at a delimiter-free script. -/
theorem escapeForShell_contract_witness :
    (∀ c ∈ ("tell application \"Notes\" to count notes" : String).data, c ≠ '\'')
    ∧ (escapeForShell "tell application \"Notes\" to count notes"
        = "tell application \"Notes\" to count notes"
      ∧ escapeForShell (escapeForShell "tell application \"Notes\" to count notes")
        = escapeForShell "tell application \"Notes\" to count notes"
      ∧ (∀ t : String,
          shellParse ('\'' :: ((escapeForShell t).data ++ ['\''])) false = some t.data)
      ∧ escapeForShell "" = "") :=
  ⟨by decide, escapeForShell_contract "tell application \"Notes\" to count notes" (by decide)⟩

/-- C5 counterexample: the claim says any falsy/undefined input is converted
to the empty string, but `escapeForShell` has no such guard — called with
an undefined argument, its `.replace` dereference throws a TypeError
instead of returning the empty string. -/
theorem escapeForShell_undefined_counterexample :
    escapeForShellJS none ≠ Except.ok "" ∧ escapeForShellJS none = Except.error "TypeError" :=
  ⟨by simp [escapeForShellJS], rfl⟩

/-- C7: `getSyncStatus` returns the cached status unmodified, and issues no
probe, exactly when `useCache` is set and a cached entry exists that is
younger than the 2000 ms TTL (an entry at or past the TTL is never served
as fresh); an uncached read bypasses the cached value and always probes;
and every probe path — forced, expired-cache, query-error or
database-missing alike — stores its fresh result and the current timestamp
back into the cache. -/
theorem getSyncStatus_cache_contract (useCache : Bool) (env : SyncEnv) (st : CacheState) :
    ((getSyncStatus useCache env st).2.2 = false
      ↔ useCache = true
        ∧ st.cachedSyncStatus.isSome = true
        ∧ env.now - st.cacheTimestamp < SYNC_STATUS_CACHE_TTL_MS)
    ∧ ((getSyncStatus useCache env st).2.2 = false
        → st.cachedSyncStatus = some (getSyncStatus useCache env st).1
          ∧ (getSyncStatus useCache env st).2.1 = st)
    ∧ (useCache = false → (getSyncStatus useCache env st).2.2 = true)
    ∧ ((getSyncStatus useCache env st).2.2 = true
        → (getSyncStatus useCache env st).1 = freshProbe env
          ∧ (getSyncStatus useCache env st).2.1 = ⟨some (freshProbe env), env.now⟩) := by
  unfold getSyncStatus probeAndCache
  cases hc : st.cachedSyncStatus with
  | none => simp [hc]
  | some c =>
    by_cases hlt : env.now - st.cacheTimestamp < SYNC_STATUS_CACHE_TTL_MS
    · cases useCache with
      | false => simp [hc, hlt]
      | true => simp [hc, hlt]
    · cases useCache with
      | false => simp [hc, hlt]
      | true => simp [hc, hlt]

/-- C8 amended: a fresh probe sets `recentActivity` by comparing the exact
(unrounded) seconds elapsed since the WAL modification with the fixed
threshold 5 — not the rounded `secondsSinceLastChange` field it stores,
which is the rounding of that quantity and can disagree with it; it sets
`syncDetected` to pending-upload > 0 OR `recentActivity`; it composes a
warning exactly when `syncDetected` holds; and when the database is
unreachable (query failure or missing database file) it returns a status
carrying the probe error with `syncDetected` false and no exception. -/
theorem freshProbe_fields (env env2 env3 : SyncEnv) (m : Int) (n : Nat) (e : String)
    (h1 : env.dbExists = true) (h2 : env.wal = some m) (h3 : env.query = Except.ok n)
    (h4 : env2.dbExists = true) (h5 : env2.query = Except.error e)
    (h6 : env3.dbExists = false) :
    (freshProbe env).pendingUpload = n
    ∧ (freshProbe env).recentActivity = decide ((((env.now - m : Int)) : ℚ) / 1000 < 5)
    ∧ (freshProbe env).secondsSinceLastChange
        = some (jsRound ((((env.now - m : Int)) : ℚ) / 1000))
    ∧ (freshProbe env).syncDetected = (decide (0 < n) || (freshProbe env).recentActivity)
    ∧ ((freshProbe env).warning ≠ none ↔ (freshProbe env).syncDetected = true)
    ∧ (freshProbe env2).error = some e
    ∧ (freshProbe env2).syncDetected = false
    ∧ (freshProbe env2).warning = none
    ∧ (freshProbe env3).error = some "Notes database not found"
    ∧ (freshProbe env3).syncDetected = false := by
  unfold freshProbe RECENT_ACTIVITY_THRESHOLD_SECONDS
  simp only [h1, h2, h3, h4, h5, h6]
  refine ⟨rfl, rfl, rfl, rfl, ?_, rfl, rfl, rfl, rfl, rfl⟩
  cases hdet : (decide (0 < n) || decide ((((env.now - m : Int)) : ℚ) / 1000 < 5)) <;> simp [hdet]

/-- C8 counterexample: with the WAL file modified 4600 ms ago, the probe
reports `recentActivity = true` (4.6 < 5) while storing
`secondsSinceLastChange = 5` (the rounding of 4.6), and 5 < 5 fails — so
`recentActivity` does not equal `secondsSinceLastChange < 5` as the claim
states it. -/
theorem recentActivity_rounding_counterexample :
    (freshProbe ⟨4600, true, some 0, Except.ok 0⟩).recentActivity = true
    ∧ (freshProbe ⟨4600, true, some 0, Except.ok 0⟩).secondsSinceLastChange = some 5
    ∧ ¬((5 : Int) < 5) := by
  have hq : (((4600 : Int) - (0 : Int) : Int) : ℚ) / 1000 < 5 := by norm_num
  have hfl : jsRound ((((4600 : Int) - (0 : Int) : Int) : ℚ) / 1000) = 5 := by
    unfold jsRound
    rw [Int.floor_eq_iff]
    constructor <;> norm_num
  refine ⟨?_, ?_, by omega⟩
  · show decide ((((4600 : Int) - (0 : Int) : Int) : ℚ) / 1000
      < RECENT_ACTIVITY_THRESHOLD_SECONDS) = true
    unfold RECENT_ACTIVITY_THRESHOLD_SECONDS
    exact decide_eq_true hq
  · show some (jsRound ((((4600 : Int) - (0 : Int) : Int) : ℚ) / 1000)) = some 5
    rw [hfl]

/-- Witness for C8 at a probe with two pending uploads and a WAL touched
ten seconds earlier, a probe whose query fails, and a missing database. -/
theorem freshProbe_fields_witness :
    ((⟨10000, true, some 0, Except.ok 2⟩ : SyncEnv).dbExists = true
      ∧ (⟨10000, true, some 0, Except.ok 2⟩ : SyncEnv).wal = some 0
      ∧ (⟨10000, true, some 0, Except.ok 2⟩ : SyncEnv).query = Except.ok 2
      ∧ (⟨0, true, none, Except.error "probe failed"⟩ : SyncEnv).dbExists = true
      ∧ (⟨0, true, none, Except.error "probe failed"⟩ : SyncEnv).query
          = Except.error "probe failed"
      ∧ (⟨0, false, none, Except.ok 0⟩ : SyncEnv).dbExists = false)
    ∧ ((freshProbe ⟨10000, true, some 0, Except.ok 2⟩).pendingUpload = 2
      ∧ (freshProbe ⟨10000, true, some 0, Except.ok 2⟩).recentActivity
          = decide (((((10000 : Int) - (0 : Int) : Int)) : ℚ) / 1000 < 5)
      ∧ (freshProbe ⟨10000, true, some 0, Except.ok 2⟩).secondsSinceLastChange
          = some (jsRound (((((10000 : Int) - (0 : Int) : Int)) : ℚ) / 1000))
      ∧ (freshProbe ⟨10000, true, some 0, Except.ok 2⟩).syncDetected
          = (decide (0 < 2)
              || (freshProbe ⟨10000, true, some 0, Except.ok 2⟩).recentActivity)
      ∧ ((freshProbe ⟨10000, true, some 0, Except.ok 2⟩).warning ≠ none
          ↔ (freshProbe ⟨10000, true, some 0, Except.ok 2⟩).syncDetected = true)
      ∧ (freshProbe ⟨0, true, none, Except.error "probe failed"⟩).error = some "probe failed"
      ∧ (freshProbe ⟨0, true, none, Except.error "probe failed"⟩).syncDetected = false
      ∧ (freshProbe ⟨0, true, none, Except.error "probe failed"⟩).warning = none
      ∧ (freshProbe ⟨0, false, none, Except.ok 0⟩).error = some "Notes database not found"
      ∧ (freshProbe ⟨0, false, none, Except.ok 0⟩).syncDetected = false) :=
  ⟨⟨rfl, rfl, rfl, rfl, rfl, rfl⟩,
    freshProbe_fields ⟨10000, true, some 0, Except.ok 2⟩
      ⟨0, true, none, Except.error "probe failed"⟩ ⟨0, false, none, Except.ok 0⟩
      0 2 "probe failed" rfl rfl rfl rfl rfl rfl⟩

theorem getSyncStatus_uncached_probes (env : SyncEnv) (st : CacheState) :
    (getSyncStatus false env st).2.2 = true := by
  unfold getSyncStatus probeAndCache
  cases st.cachedSyncStatus <;> simp

theorem containsSub_append_left (pat : List Char) :
    ∀ (x y : List Char), containsSub pat y = true → containsSub pat (x ++ y) = true := by
  intro x
  induction x with
  | nil => intro y h; simpa using h
  | cons c cs ih =>
    intro y h
    simp only [List.cons_append, containsSub, List.append_eq]
    rw [ih y h, Bool.or_true]

theorem interferenceMessage_delta (op : String) (b a : SyncStatus) :
    strContains (interferenceMessage op b a)
      (toString b.pendingUpload ++ " → " ++ toString a.pendingUpload) = true := by
  unfold strContains interferenceMessage
  have h2 := containsSub_of_middle
      ((toString b.pendingUpload).data ++ (" → ".data ++ (toString a.pendingUpload).data))
      ("iCloud sync activity detected during \"".data
        ++ (op.data ++ "\". Pending items: ".data))
      (". Results may have been affected by sync.".data)
  simp only [str_data_append, List.append_assoc] at h2 ⊢
  exact h2

/-- C9: in both bracketing variants the before status is a cache-eligible
read and the after status is an uncached fresh read (which always probes);
`syncInterference` is true exactly when sync was detected before and the
pending-upload count changed across the operation, or recent activity held
both before and after; when it is true the interference warning carrying
the pending-count delta is produced, and otherwise no warning is produced.
The synchronous variant returns the same record as the asynchronous one. -/
theorem withSyncAwareness_bracketing (α : Type) (op : String) (envB envA : SyncEnv)
    (st : CacheState) (x : α) (before after : SyncStatus)
    (hb : before = (getSyncStatus true envB st).1)
    (ha : after = (getSyncStatus false envA (getSyncStatus true envB st).2.1).1) :
    (withSyncAwareness op envB envA st x).1.syncBefore = before
    ∧ (withSyncAwareness op envB envA st x).1.syncAfter = some after
    ∧ (getSyncStatus false envA (getSyncStatus true envB st).2.1).2.2 = true
    ∧ (withSyncAwareness op envB envA st x).1.result = x
    ∧ (withSyncAwareness op envB envA st x).1.syncInterference
        = ((before.syncDetected && (before.pendingUpload != after.pendingUpload))
            || (before.recentActivity && after.recentActivity))
    ∧ ((withSyncAwareness op envB envA st x).1.syncInterference = true
        → (withSyncAwareness op envB envA st x).1.interferenceWarning
            = some (interferenceMessage op before after)
          ∧ strContains (interferenceMessage op before after)
              (toString before.pendingUpload ++ " → " ++ toString after.pendingUpload) = true)
    ∧ ((withSyncAwareness op envB envA st x).1.syncInterference = false
        → (withSyncAwareness op envB envA st x).1.interferenceWarning = none)
    ∧ (withSyncAwarenessSync op envB envA st x).1 = (withSyncAwareness op envB envA st x).1 := by
  subst hb ha
  refine ⟨rfl, rfl, getSyncStatus_uncached_probes _ _, rfl, rfl, ?_, ?_, rfl⟩
  · intro h
    refine ⟨?_, interferenceMessage_delta op _ _⟩
    simp only [withSyncAwareness] at h ⊢
    simp [h]
  · intro h
    simp only [withSyncAwareness] at h ⊢
    simp [h]

/-- Witness for C9 at a concrete bracketed operation: one pending upload
before, three after, starting from a cleared cache. -/
theorem withSyncAwareness_bracketing_witness :
    ((getSyncStatus true ⟨0, true, some 0, Except.ok 1⟩ clearSyncStatusCache).1
        = (getSyncStatus true ⟨0, true, some 0, Except.ok 1⟩ clearSyncStatusCache).1
      ∧ (getSyncStatus false ⟨600, true, some 0, Except.ok 3⟩
            (getSyncStatus true ⟨0, true, some 0, Except.ok 1⟩ clearSyncStatusCache).2.1).1
        = (getSyncStatus false ⟨600, true, some 0, Except.ok 3⟩
            (getSyncStatus true ⟨0, true, some 0, Except.ok 1⟩ clearSyncStatusCache).2.1).1)
    ∧ ((withSyncAwareness "create-note" ⟨0, true, some 0, Except.ok 1⟩
          ⟨600, true, some 0, Except.ok 3⟩ clearSyncStatusCache (42 : Nat)).1.syncBefore
        = (getSyncStatus true ⟨0, true, some 0, Except.ok 1⟩ clearSyncStatusCache).1
      ∧ (withSyncAwareness "create-note" ⟨0, true, some 0, Except.ok 1⟩
          ⟨600, true, some 0, Except.ok 3⟩ clearSyncStatusCache (42 : Nat)).1.syncAfter
        = some (getSyncStatus false ⟨600, true, some 0, Except.ok 3⟩
            (getSyncStatus true ⟨0, true, some 0, Except.ok 1⟩ clearSyncStatusCache).2.1).1
      ∧ (getSyncStatus false ⟨600, true, some 0, Except.ok 3⟩
          (getSyncStatus true ⟨0, true, some 0, Except.ok 1⟩ clearSyncStatusCache).2.1).2.2 = true
      ∧ (withSyncAwareness "create-note" ⟨0, true, some 0, Except.ok 1⟩
          ⟨600, true, some 0, Except.ok 3⟩ clearSyncStatusCache (42 : Nat)).1.result = 42
      ∧ (withSyncAwareness "create-note" ⟨0, true, some 0, Except.ok 1⟩
          ⟨600, true, some 0, Except.ok 3⟩ clearSyncStatusCache (42 : Nat)).1.syncInterference
        = (((getSyncStatus true ⟨0, true, some 0, Except.ok 1⟩
              clearSyncStatusCache).1.syncDetected
            && ((getSyncStatus true ⟨0, true, some 0, Except.ok 1⟩
                  clearSyncStatusCache).1.pendingUpload
                != (getSyncStatus false ⟨600, true, some 0, Except.ok 3⟩
                    (getSyncStatus true ⟨0, true, some 0, Except.ok 1⟩
                      clearSyncStatusCache).2.1).1.pendingUpload))
          || ((getSyncStatus true ⟨0, true, some 0, Except.ok 1⟩
                clearSyncStatusCache).1.recentActivity
              && (getSyncStatus false ⟨600, true, some 0, Except.ok 3⟩
                  (getSyncStatus true ⟨0, true, some 0, Except.ok 1⟩
                    clearSyncStatusCache).2.1).1.recentActivity))
      ∧ ((withSyncAwareness "create-note" ⟨0, true, some 0, Except.ok 1⟩
            ⟨600, true, some 0, Except.ok 3⟩ clearSyncStatusCache (42 : Nat)).1.syncInterference
          = true
          → (withSyncAwareness "create-note" ⟨0, true, some 0, Except.ok 1⟩
              ⟨600, true, some 0, Except.ok 3⟩ clearSyncStatusCache
                (42 : Nat)).1.interferenceWarning
            = some (interferenceMessage "create-note"
                (getSyncStatus true ⟨0, true, some 0, Except.ok 1⟩ clearSyncStatusCache).1
                (getSyncStatus false ⟨600, true, some 0, Except.ok 3⟩
                  (getSyncStatus true ⟨0, true, some 0, Except.ok 1⟩
                    clearSyncStatusCache).2.1).1)
            ∧ strContains (interferenceMessage "create-note"
                (getSyncStatus true ⟨0, true, some 0, Except.ok 1⟩ clearSyncStatusCache).1
                (getSyncStatus false ⟨600, true, some 0, Except.ok 3⟩
                  (getSyncStatus true ⟨0, true, some 0, Except.ok 1⟩
                    clearSyncStatusCache).2.1).1)
                (toString (getSyncStatus true ⟨0, true, some 0, Except.ok 1⟩
                    clearSyncStatusCache).1.pendingUpload
                  ++ " → "
                  ++ toString (getSyncStatus false ⟨600, true, some 0, Except.ok 3⟩
                      (getSyncStatus true ⟨0, true, some 0, Except.ok 1⟩
                        clearSyncStatusCache).2.1).1.pendingUpload) = true)
      ∧ ((withSyncAwareness "create-note" ⟨0, true, some 0, Except.ok 1⟩
            ⟨600, true, some 0, Except.ok 3⟩ clearSyncStatusCache (42 : Nat)).1.syncInterference
          = false
          → (withSyncAwareness "create-note" ⟨0, true, some 0, Except.ok 1⟩
              ⟨600, true, some 0, Except.ok 3⟩ clearSyncStatusCache
                (42 : Nat)).1.interferenceWarning = none)
      ∧ (withSyncAwarenessSync "create-note" ⟨0, true, some 0, Except.ok 1⟩
            ⟨600, true, some 0, Except.ok 3⟩ clearSyncStatusCache (42 : Nat)).1
        = (withSyncAwareness "create-note" ⟨0, true, some 0, Except.ok 1⟩
            ⟨600, true, some 0, Except.ok 3⟩ clearSyncStatusCache (42 : Nat)).1) :=
  ⟨⟨rfl, rfl⟩,
    withSyncAwareness_bracketing Nat "create-note" ⟨0, true, some 0, Except.ok 1⟩
      ⟨600, true, some 0, Except.ok 3⟩ clearSyncStatusCache 42
      (getSyncStatus true ⟨0, true, some 0, Except.ok 1⟩ clearSyncStatusCache).1
      (getSyncStatus false ⟨600, true, some 0, Except.ok 3⟩
        (getSyncStatus true ⟨0, true, some 0, Except.ok 1⟩ clearSyncStatusCache).2.1).1
      rfl rfl⟩

theorem runAttempts_spec (exec : Nat → ExecOutcome) (timeoutMs retryDelayMs : Nat)
    (maxRetries : Int) :
    ∀ (fuel attempt : Nat) (lastError : Option ASResult),
      1 ≤ attempt → (fuel : Int) = maxRetries - attempt + 1 → 1 ≤ fuel →
      (attempt
          ≤ (runAttempts exec timeoutMs retryDelayMs maxRetries fuel attempt
              lastError).attemptsMade
        ∧ ((runAttempts exec timeoutMs retryDelayMs maxRetries fuel attempt
              lastError).attemptsMade : Int) ≤ maxRetries)
      ∧ (runAttempts exec timeoutMs retryDelayMs maxRetries fuel attempt lastError).result
          = some (attemptResult timeoutMs
              (exec (runAttempts exec timeoutMs retryDelayMs maxRetries fuel attempt
                lastError).attemptsMade))
      ∧ (∀ k, attempt ≤ k
          → k < (runAttempts exec timeoutMs retryDelayMs maxRetries fuel attempt
              lastError).attemptsMade
          → ∃ e, exec k = ExecOutcome.threw e ∧ canRetry timeoutMs e = true)
      ∧ (((runAttempts exec timeoutMs retryDelayMs maxRetries fuel attempt
            lastError).attemptsMade : Int) < maxRetries
          → ∀ e, exec (runAttempts exec timeoutMs retryDelayMs maxRetries fuel attempt
              lastError).attemptsMade = ExecOutcome.threw e
            → canRetry timeoutMs e = false)
      ∧ (runAttempts exec timeoutMs retryDelayMs maxRetries fuel attempt lastError).sleeps
          = (List.range ((runAttempts exec timeoutMs retryDelayMs maxRetries fuel attempt
              lastError).attemptsMade - attempt)).map
              (fun i => retryDelayMs * 2 ^ (attempt - 1 + i)) := by
  intro fuel
  induction fuel with
  | zero =>
    intro attempt lastError _ _ hf
    omega
  | succ f ih =>
    intro attempt lastError h1 hinv hf
    cases hx : exec attempt with
    | ok out =>
      simp only [runAttempts, hx]
      refine ⟨⟨le_refl _, by omega⟩, rfl, ?_, ?_, ?_⟩
      · intro k hk1 hk2
        omega
      · intro _ e he
        exact ExecOutcome.noConfusion he
      · simp
    | threw e =>
      by_cases hcr : canRetry timeoutMs e = true ∧ (attempt : Int) < maxRetries
      · obtain ⟨hcr1, hcr2⟩ := hcr
        have hrec := ih (attempt + 1)
          (some ⟨false, "", some (failMessage timeoutMs e)⟩)
          (by omega) (by omega) (by omega)
        simp only [runAttempts, hx, if_pos (And.intro hcr1 hcr2)]
        obtain ⟨⟨ha1, ha2⟩, ha3, ha4, ha5, ha6⟩ := hrec
        refine ⟨⟨by omega, ha2⟩, ha3, ?_, ha5, ?_⟩
        · intro k hk1 hk2
          rcases Nat.eq_or_lt_of_le hk1 with hke | hkl
          · exact ⟨e, hke ▸ hx, hcr1⟩
          · exact ha4 k hkl hk2
        · rw [ha6]
          have hsub : (runAttempts exec timeoutMs retryDelayMs maxRetries f (attempt + 1)
                (some ⟨false, "", some (failMessage timeoutMs e)⟩)).attemptsMade - attempt
              = ((runAttempts exec timeoutMs retryDelayMs maxRetries f (attempt + 1)
                (some ⟨false, "", some (failMessage timeoutMs e)⟩)).attemptsMade
                  - (attempt + 1)) + 1 := by omega
          rw [hsub, List.range_succ_eq_map, List.map_cons, List.map_map]
          have hhead : retryDelayMs * 2 ^ (attempt - 1 + 0) = retryDelayMs * 2 ^ (attempt - 1) := by
            rw [Nat.add_zero]
          rw [hhead]
          refine congrArg₂ List.cons rfl ?_
          apply List.map_congr_left
          intro i _
          have hexp : attempt + 1 - 1 + i = attempt - 1 + (i + 1) := by omega
          simp only [Function.comp_apply, hexp, Nat.succ_eq_add_one]
      · simp only [runAttempts, hx, if_neg hcr]
        refine ⟨⟨le_refl _, by omega⟩, rfl, ?_, ?_, ?_⟩
        · intro k hk1 hk2
          omega
        · intro hlt e2 he2
          injection he2 with hee
          subst hee
          cases hcre : canRetry timeoutMs e with
          | false => rfl
          | true => exact absurd ⟨hcre, hlt⟩ hcr
        · simp

/-- C1: for every non-empty command run with `maxRetries ≥ 1`, the retry
loop invokes the subprocess between 1 and `maxRetries` times; the returned
outcome is always the outcome of the last attempt made (a success returns
the trimmed output immediately, a failure the classified error); every
attempt before the last was a retryable failure, so a non-retryable first
failure yields exactly one invocation; an early stop below `maxRetries`
happens only on success or a non-retryable failure; and the backoff sleeps
are exactly `retryDelayMs * 2 ^ (attempt - 1)` milliseconds before each
retry, in attempt order. -/
theorem executeAppleScript_retry_contract (script : Option String)
    (timeoutMs retryDelayMs : Nat) (maxRetries : Int) (exec : Nat → ExecOutcome)
    (t : ExecTrace) (hs : scriptEmpty script = false) (hm : 1 ≤ maxRetries)
    (ht : t = executeAppleScript script timeoutMs maxRetries retryDelayMs exec) :
    (1 ≤ t.attemptsMade ∧ (t.attemptsMade : Int) ≤ maxRetries)
    ∧ t.result = some (attemptResult timeoutMs (exec t.attemptsMade))
    ∧ (∀ k, 1 ≤ k → k < t.attemptsMade
        → ∃ e, exec k = ExecOutcome.threw e ∧ canRetry timeoutMs e = true)
    ∧ ((t.attemptsMade : Int) < maxRetries
        → ∀ e, exec t.attemptsMade = ExecOutcome.threw e → canRetry timeoutMs e = false)
    ∧ t.sleeps = (List.range (t.attemptsMade - 1)).map (fun i => retryDelayMs * 2 ^ i) := by
  subst ht
  have hrw : executeAppleScript script timeoutMs maxRetries retryDelayMs exec
      = runAttempts exec timeoutMs retryDelayMs maxRetries maxRetries.toNat 1 none := by
    unfold executeAppleScript
    rw [if_neg]
    intro hcon
    rw [hs] at hcon
    exact Bool.false_ne_true hcon
  rw [hrw]
  have hcast : (maxRetries.toNat : Int) = maxRetries := Int.toNat_of_nonneg (by omega)
  have hspec := runAttempts_spec exec timeoutMs retryDelayMs maxRetries maxRetries.toNat 1 none
    (le_refl 1) (by omega) (by omega)
  obtain ⟨⟨ha1, ha2⟩, ha3, ha4, ha5, ha6⟩ := hspec
  refine ⟨⟨ha1, ha2⟩, ha3, ha4, ha5, ?_⟩
  rw [ha6]
  apply List.map_congr_left
  intro i _
  have hexp : 1 - 1 + i = i := by omega
  rw [hexp]

/-- Witness for C1: a first retryable failure followed by a success, with
three permitted attempts. -/
theorem executeAppleScript_retry_contract_witness :
    (scriptEmpty (some "tell application \"Notes\" to count notes") = false
      ∧ (1 : Int) ≤ 3
      ∧ executeAppleScript (some "tell application \"Notes\" to count notes") 30000 3 1000
          (fun k => if k = 1
            then ExecOutcome.threw (CaughtError.errObj false none "Notes.app is not responding")
            else ExecOutcome.ok " 12 ")
        = executeAppleScript (some "tell application \"Notes\" to count notes") 30000 3 1000
          (fun k => if k = 1
            then ExecOutcome.threw (CaughtError.errObj false none "Notes.app is not responding")
            else ExecOutcome.ok " 12 "))
    ∧ ((1 ≤ (executeAppleScript (some "tell application \"Notes\" to count notes") 30000 3 1000
          (fun k => if k = 1
            then ExecOutcome.threw (CaughtError.errObj false none "Notes.app is not responding")
            else ExecOutcome.ok " 12 ")).attemptsMade
        ∧ ((executeAppleScript (some "tell application \"Notes\" to count notes") 30000 3 1000
          (fun k => if k = 1
            then ExecOutcome.threw (CaughtError.errObj false none "Notes.app is not responding")
            else ExecOutcome.ok " 12 ")).attemptsMade : Int) ≤ 3)
      ∧ (executeAppleScript (some "tell application \"Notes\" to count notes") 30000 3 1000
          (fun k => if k = 1
            then ExecOutcome.threw (CaughtError.errObj false none "Notes.app is not responding")
            else ExecOutcome.ok " 12 ")).result
        = some (attemptResult 30000 ((fun k => if k = 1
            then ExecOutcome.threw (CaughtError.errObj false none "Notes.app is not responding")
            else ExecOutcome.ok " 12 ")
            (executeAppleScript (some "tell application \"Notes\" to count notes") 30000 3 1000
              (fun k => if k = 1
                then ExecOutcome.threw
                  (CaughtError.errObj false none "Notes.app is not responding")
                else ExecOutcome.ok " 12 ")).attemptsMade))
      ∧ (∀ k, 1 ≤ k
          → k < (executeAppleScript (some "tell application \"Notes\" to count notes") 30000 3
              1000 (fun k => if k = 1
                then ExecOutcome.threw
                  (CaughtError.errObj false none "Notes.app is not responding")
                else ExecOutcome.ok " 12 ")).attemptsMade
          → ∃ e, (fun k => if k = 1
              then ExecOutcome.threw (CaughtError.errObj false none "Notes.app is not responding")
              else ExecOutcome.ok " 12 ") k = ExecOutcome.threw e
            ∧ canRetry 30000 e = true)
      ∧ (((executeAppleScript (some "tell application \"Notes\" to count notes") 30000 3 1000
            (fun k => if k = 1
              then ExecOutcome.threw (CaughtError.errObj false none "Notes.app is not responding")
              else ExecOutcome.ok " 12 ")).attemptsMade : Int) < 3
          → ∀ e, (fun k => if k = 1
              then ExecOutcome.threw (CaughtError.errObj false none "Notes.app is not responding")
              else ExecOutcome.ok " 12 ")
              (executeAppleScript (some "tell application \"Notes\" to count notes") 30000 3 1000
                (fun k => if k = 1
                  then ExecOutcome.threw
                    (CaughtError.errObj false none "Notes.app is not responding")
                  else ExecOutcome.ok " 12 ")).attemptsMade = ExecOutcome.threw e
            → canRetry 30000 e = false)
      ∧ (executeAppleScript (some "tell application \"Notes\" to count notes") 30000 3 1000
          (fun k => if k = 1
            then ExecOutcome.threw (CaughtError.errObj false none "Notes.app is not responding")
            else ExecOutcome.ok " 12 ")).sleeps
        = (List.range ((executeAppleScript (some "tell application \"Notes\" to count notes")
            30000 3 1000 (fun k => if k = 1
              then ExecOutcome.threw (CaughtError.errObj false none "Notes.app is not responding")
              else ExecOutcome.ok " 12 ")).attemptsMade - 1)).map
            (fun i => 1000 * 2 ^ i)) :=
  ⟨⟨by decide, by decide, rfl⟩,
    executeAppleScript_retry_contract (some "tell application \"Notes\" to count notes")
      30000 1000 3
      (fun k => if k = 1
        then ExecOutcome.threw (CaughtError.errObj false none "Notes.app is not responding")
        else ExecOutcome.ok " 12 ")
      (executeAppleScript (some "tell application \"Notes\" to count notes") 30000 3 1000
        (fun k => if k = 1
          then ExecOutcome.threw (CaughtError.errObj false none "Notes.app is not responding")
          else ExecOutcome.ok " 12 "))
      (by decide) (by decide) rfl⟩
